import Mathlib

/-!
Verification development for the per-tick observation / reward engine of the
supply-chain example (`examples/hello_world/supply_chain/env_wrapper.py`,
class `SCEnvWrapper`, together with the static topology summary it consumes).

The Python code is shallowly embedded: dictionaries become association lists
over `Nat` keys, numpy float arrays become `List ℚ`, floats become `ℚ`, and
the external simulation engine (snapshot store, metrics handle, settings) is
an explicit environment record.  The external numeric library calls
(`numpy.sqrt`, `scipy.stats.norm.ppf`, i.e. the standard-normal inverse CDF)
are passed in as an abstract `NumLib` parameter, since they are outside the
repository.
-/

namespace SCEnvWrapper

/-- Association-list lookup; mirrors Python dict lookup.  The Python dicts in
scope have unique keys, for which first-match lookup agrees with dict
semantics. -/
def lookupA {α : Type} : List (Nat × α) → Nat → Option α
  | [], _ => none
  | p :: rest, k => if p.1 = k then some p.2 else lookupA rest k

/-- Dict lookup with a default.  Where the Python code indexes a dict without
a default it raises `KeyError` on a missing key; no claim exercises that
case, and the default value stands in for the crash. -/
def lookupD {α : Type} (l : List (Nat × α)) (k : Nat) (d : α) : α :=
  (lookupA l k).getD d

/-- List element assignment `v[k] = x`.  Out-of-range assignment leaves the
list unchanged (Python raises `IndexError` there; no claim exercises it). -/
def listSet {α : Type} : List α → Nat → α → List α
  | [], _, _ => []
  | _ :: xs, 0, x => x :: xs
  | y :: xs, n + 1, x => y :: listSet xs n x

/-- Python dict insertion `d[k] = x`: replace in place if the key exists,
else append (insertion order preserved). -/
def dictInsert {α : Type} (d : List (Nat × α)) (k : Nat) (x : α) : List (Nat × α) :=
  if d.any (fun p => p.1 == k) then d.map (fun p => if p.1 = k then (k, x) else p)
  else d ++ [(k, x)]

/-- Build a Python dict from a list of key/value pairs (later pairs win, as
in a dict comprehension over a zip). -/
def dictOf {α : Type} (l : List (Nat × α)) : List (Nat × α) :=
  l.foldl (fun d p => dictInsert d p.1 p.2) []

/-- `UnitBaseInfo`: id and snapshot row of one sub-unit (storage,
distribution, product, seller, consumer, manufacture). -/
structure UnitBaseInfo where
  id : Nat
  node_index : Nat
  deriving DecidableEq, Repr

/-- One entry of the global sku catalogue `summary["skus"]` (only its `id`
is read by the wrapper's loops). -/
structure SkuMeta where
  id : Nat
  deriving DecidableEq, Repr

/-- `agent_info.sku`: the per-agent sku reference (id, price, cost,
service level). -/
structure AgentSku where
  id : Nat
  price : ℚ
  cost : ℚ
  service_level : ℚ
  deriving DecidableEq, Repr

/-- One controllable agent, as listed by `env.agent_idx_list`. -/
structure AgentInfo where
  id : Nat
  facility_id : Nat
  agent_type : Nat
  is_facility : Bool
  sku : Option AgentSku
  deriving DecidableEq, Repr

/-- Per-facility static sku configuration `facility["skus"][sku_id]`
(lead time `vlt` and demand shape `sale_gamma`). -/
structure FacilitySkuConfig where
  vlt : ℚ
  sale_gamma : ℚ
  deriving DecidableEq, Repr

/-- One sku's sub-unit bundle inside a facility (the `product_info` dict
built in `SCEnvWrapper.__init__`).  `skuproduct_max_vlt` is the summary
attribute `product_info["skuproduct"]["max_vlt"]`. -/
structure ProductBundle where
  skuproduct : UnitBaseInfo
  skuproduct_max_vlt : ℚ
  seller : Option UnitBaseInfo
  consumer : Option UnitBaseInfo
  manufacture : Option UnitBaseInfo
  deriving DecidableEq, Repr

/-- One entry of `self.facility_levels`.  The wrapper reads
`facility['storage']` unconditionally, so storage is modelled as required;
`storage_capacity` is `facility['storage'].config["capacity"]`. -/
structure FacilityLevel where
  node_index : Nat
  upstreams : List (Nat × List Nat)
  skus : List (Nat × FacilitySkuConfig)
  storage : UnitBaseInfo
  storage_capacity : ℚ
  distribution : Option UnitBaseInfo
  products : List (Nat × ProductBundle)
  deriving DecidableEq, Repr

/-- Per-product metrics `metrics["products"][id]`. -/
structure ProductMetrics where
  total_balance_sheet_total : ℚ
  sale_mean : ℚ
  sale_std : ℚ
  pending_order_daily : List ℚ

/-- Per-facility metrics `metrics["facilities"][id]`.  `in_transit_orders`
and `pending_order` are engine-provided dicts keyed by sku id, modelled as
total functions. -/
structure FacilityMetrics where
  total_balance_sheet_total : ℚ
  in_transit_orders : Nat → ℚ
  pending_order : Option (Nat → ℚ)

/-- The per-tick metrics handle `env.metrics`.  `step_rewards` is read by
`get_reward` but never used afterwards. -/
structure Metrics where
  max_sources_per_facility : Nat
  max_price : ℚ
  facilities : Nat → FacilityMetrics
  products : Nat → ProductMetrics
  step_balance_sheet : List (Nat × ℚ)
  step_rewards : List (Nat × ℚ)

/-- The snapshot store, per the external contract: a value per
(tick, node, attribute); window queries enumerate the tick list.
`distribution_states` is keyed by the distribution unit id, as in the
source (`dist_states` is queried at `distribution.id`). -/
structure Snapshots where
  storage_product_list : Int → Nat → List Nat
  storage_product_number : Int → Nat → List ℚ
  consumer_latest_consumptions : Int → Nat → ℚ
  seller_total_demand : Int → Nat → ℚ
  seller_sold : Int → Nat → ℚ
  seller_demand : Int → Nat → ℚ
  distribution_states : Int → Nat → ℚ × ℚ

/-- Recognized configuration options `env.configs.settings`. -/
structure Settings where
  global_reward_weight_consumer : ℚ
  constraint_state_hist_len : Nat
  sale_hist_len : Nat
  consumption_hist_len : Nat
  pending_order_len : Nat

/-- The whole wrapper environment: current tick, settings, static summary
(agent types, sku catalogue, facility levels) and the per-tick metrics and
snapshot handles. -/
structure SCEnv where
  tick : Int
  settings : Settings
  agent_types : List String
  skus : List SkuMeta
  facilities : List (Nat × FacilityLevel)
  agent_list : List AgentInfo
  metrics : Metrics
  snapshots : Snapshots

/-- External numeric collaborators: `numpy.sqrt` and
`scipy.stats.norm.ppf` (the standard-normal inverse CDF), abstracted. -/
structure NumLib where
  sqrt : ℚ → ℚ
  normPpf : ℚ → ℚ

/-- `self._sku_number = len(summary["skus"]) + 1` (sku ids start at 1, so
all-sku vectors get one extra slot). -/
def sku_number (env : SCEnv) : Nat :=
  env.skus.length + 1

/-- Default facility level; stands in for the `KeyError` Python raises when
`facility_levels` lacks an agent's facility id. -/
def defaultFacility : FacilityLevel :=
  { node_index := 0, upstreams := [], skus := [], storage := ⟨0, 0⟩
    storage_capacity := 0, distribution := none, products := [] }

def facilityOf (env : SCEnv) (fid : Nat) : FacilityLevel :=
  lookupD env.facilities fid defaultFacility

/-- Default per-facility sku config; stands in for the `KeyError` Python
raises when `facility["skus"]` lacks the key. -/
def noFacilitySku : FacilitySkuConfig := ⟨0, 0⟩

def lookupFSku (l : List (Nat × FacilitySkuConfig)) (k : Nat) : FacilitySkuConfig :=
  lookupD l k noFacilitySku

/-- The reverse map `self.unit_2_facility_dict` built at startup: every
storage / distribution / product / seller / consumer / manufacture unit id
maps to its owning facility id. -/
def productEntries (fid : Nat) (p : ProductBundle) : List (Nat × Nat) :=
  [(p.skuproduct.id, fid)]
    ++ (match p.seller with | some u => [(u.id, fid)] | none => [])
    ++ (match p.consumer with | some u => [(u.id, fid)] | none => [])
    ++ (match p.manufacture with | some u => [(u.id, fid)] | none => [])

def unit2facility (facilities : List (Nat × FacilityLevel)) : List (Nat × Nat) :=
  facilities.foldl
    (fun acc pf =>
      acc ++ [(pf.2.storage.id, pf.1)]
        ++ (match pf.2.distribution with | some u => [(u.id, pf.1)] | none => [])
        ++ pf.2.products.foldl (fun acc2 pp => acc2 ++ productEntries pf.1 pp.2) [])
    []

/-- The per-agent raw state record: every key the eight extractors write
into the Python dict, in declaration order.  `facility`, `facility_info`
and `sku_info` hold non-numeric references (`None` / config dicts) that are
never serialized; they are modelled as `Unit`. -/
structure RawState where
  facility_type : List ℚ
  facility : Unit
  is_accepted : List ℚ
  constraint_idx : List ℚ
  stock_constraint : List ℚ
  is_replenish_constraint : List ℚ
  low_profit : List ℚ
  low_stock_constraint : List ℚ
  out_of_stock : List ℚ
  facility_id : List ℚ
  facility_info : Unit
  sku_info : Unit
  is_positive_balance : ℚ
  echelon_level : ℚ
  storage_levels : List ℚ
  storage_capacity : ℚ
  storage_utilization : ℚ
  bom_inputs : List ℚ
  bom_outputs : List ℚ
  distributor_in_transit_orders : ℚ
  distributor_in_transit_orders_qty : ℚ
  sale_mean : ℚ
  sale_std : ℚ
  sale_gamma : ℚ
  service_level : ℚ
  total_backlog_demand : ℚ
  sale_hist : List ℚ
  backlog_demand_hist : List ℚ
  consumption_hist : List ℚ
  pending_order : List ℚ
  vlt : List ℚ
  max_vlt : ℚ
  consumer_source_export_mask : List ℚ
  consumer_source_inventory : List ℚ
  consumer_in_transit_orders : List ℚ
  inventory_in_stock : ℚ
  inventory_in_transit : ℚ
  inventory_in_distribution : ℚ
  inventory_estimated : ℚ
  inventory_rop : ℚ
  is_over_stock : ℚ
  is_out_of_stock : ℚ
  is_below_rop : ℚ
  max_price : ℚ
  sku_price : ℚ
  sku_cost : ℚ
  global_time : Int

/-- The empty starting record (the Python code starts from `state = {}`;
every field below is overwritten by the extractors before it is read). -/
def initState : RawState :=
  { facility_type := [], facility := (), is_accepted := [], constraint_idx := []
    stock_constraint := [], is_replenish_constraint := [], low_profit := []
    low_stock_constraint := [], out_of_stock := [], facility_id := []
    facility_info := (), sku_info := (), is_positive_balance := 0
    echelon_level := 0, storage_levels := [], storage_capacity := 0
    storage_utilization := 0, bom_inputs := [], bom_outputs := []
    distributor_in_transit_orders := 0, distributor_in_transit_orders_qty := 0
    sale_mean := 0, sale_std := 0, sale_gamma := 0, service_level := 0
    total_backlog_demand := 0, sale_hist := [], backlog_demand_hist := []
    consumption_hist := [], pending_order := [], vlt := [], max_vlt := 0
    consumer_source_export_mask := [], consumer_source_inventory := []
    consumer_in_transit_orders := [], inventory_in_stock := 0
    inventory_in_transit := 0, inventory_in_distribution := 0
    inventory_estimated := 0, inventory_rop := 0, is_over_stock := 0
    is_out_of_stock := 0, is_below_rop := 0, max_price := 0, sku_price := 0
    sku_cost := 0, global_time := 0 }

/-- An agent's sku when it is a product-level agent (`agent_info.is_facility`
false).  `none` also covers the ill-formed case of a product agent without a
sku, where Python would raise `AttributeError` on `agent_info.sku.id`. -/
def productSku (a : AgentInfo) : Option AgentSku :=
  if a.is_facility then none else a.sku

/-- The agent's product bundle `facility_levels[facility_id][sku.id]`. -/
def bundleOf (env : SCEnv) (a : AgentInfo) : Option ProductBundle :=
  match productSku a with
  | none => none
  | some sku => lookupA (facilityOf env a.facility_id).products sku.id

/-! ### `_add_facility_features` -/

def facility_type_vec (env : SCEnv) (a : AgentInfo) : List ℚ :=
  (List.range env.agent_types.length).map (fun i => if i = a.agent_type then 1 else 0)

/-- `list(np.ones(constraint_state_hist_len))`, written once per atom. -/
def ones_hist (env : SCEnv) : List ℚ :=
  List.replicate env.settings.constraint_state_hist_len 1

/-- One-hot of the agent's sku id inside a vector of width `sku_number`
(named `facility_id` in the source but actually a sku one-hot). -/
def facility_id_vec (env : SCEnv) (a : AgentInfo) : List ℚ :=
  match productSku a with
  | none => List.replicate (sku_number env) 0
  | some sku => listSet (List.replicate (sku_number env) 0) sku.id 1

def is_positive_balance_val (env : SCEnv) (a : AgentInfo) : ℚ :=
  if a.is_facility then
    if 0 < (env.metrics.facilities a.facility_id).total_balance_sheet_total then 1 else 0
  else
    if 0 < (env.metrics.products a.id).total_balance_sheet_total then 1 else 0

def add_facility_features (env : SCEnv) (a : AgentInfo) (s : RawState) : RawState :=
  { s with
    facility_type := facility_type_vec env a
    facility := ()
    is_accepted := List.replicate env.settings.constraint_state_hist_len 0
    constraint_idx := [0]
    stock_constraint := ones_hist env
    is_replenish_constraint := ones_hist env
    low_profit := ones_hist env
    low_stock_constraint := ones_hist env
    out_of_stock := ones_hist env
    facility_id := facility_id_vec env a
    facility_info := ()
    sku_info := ()
    is_positive_balance := is_positive_balance_val env a
    echelon_level := 0 }

/-! ### `_add_storage_features` -/

/-- The per-facility storage snapshot cached by `_get_state`:
`{pid: pnum for pid, pnum in zip(product_list, product_number)}`. -/
def cur_storage_products (env : SCEnv) (fid : Nat) : List (Nat × ℚ) :=
  let f := facilityOf env fid
  dictOf (List.zip (env.snapshots.storage_product_list env.tick f.storage.node_index)
                   (env.snapshots.storage_product_number env.tick f.storage.node_index))

/-- Storage levels vector and utilization accumulated in one pass over the
cached storage products. -/
def storage_pair (env : SCEnv) (a : AgentInfo) : List ℚ × ℚ :=
  (cur_storage_products env a.facility_id).foldl
    (fun acc pn => (listSet acc.1 pn.1 pn.2, acc.2 + pn.2))
    (List.replicate (sku_number env) 0, 0)

def add_storage_features (env : SCEnv) (a : AgentInfo) (s : RawState) : RawState :=
  { s with
    storage_levels := (storage_pair env a).1
    storage_capacity := (facilityOf env a.facility_id).storage_capacity
    storage_utilization := (storage_pair env a).2 }

/-! ### `_add_bom_features` -/

def bom_vec (env : SCEnv) (a : AgentInfo) : List ℚ :=
  match productSku a with
  | none => List.replicate (sku_number env) 0
  | some sku => listSet (List.replicate (sku_number env) 0) sku.id 1

def add_bom_features (env : SCEnv) (a : AgentInfo) (s : RawState) : RawState :=
  { s with bom_inputs := bom_vec env a, bom_outputs := bom_vec env a }

/-! ### `_add_distributor_features` -/

/-- `(remaining_order_quantity, remaining_order_number)` of the facility's
distribution unit at the current tick, or zeros when the facility has no
distribution. -/
def dist_pair (env : SCEnv) (a : AgentInfo) : ℚ × ℚ :=
  match (facilityOf env a.facility_id).distribution with
  | none => (0, 0)
  | some d => env.snapshots.distribution_states env.tick d.id

def add_distributor_features (env : SCEnv) (a : AgentInfo) (s : RawState) : RawState :=
  { s with
    distributor_in_transit_orders := (dist_pair env a).2
    distributor_in_transit_orders_qty := (dist_pair env a).1 }

/-! ### `_add_sale_features` -/

def sale_mean_val (env : SCEnv) (a : AgentInfo) : ℚ :=
  match productSku a with
  | none => 1
  | some _ => (env.metrics.products a.id).sale_mean

def sale_std_val (env : SCEnv) (a : AgentInfo) : ℚ :=
  match productSku a with
  | none => 1
  | some _ => (env.metrics.products a.id).sale_std

def service_level_val (a : AgentInfo) : ℚ :=
  match productSku a with
  | none => 95 / 100
  | some sku => sku.service_level

/-- `sale_gamma` mirrors `sale_mean` for a product agent, overridden by the
facility's static per-sku `sale_gamma` when a seller sub-unit exists. -/
def sale_gamma_val (env : SCEnv) (a : AgentInfo) : ℚ :=
  match productSku a with
  | none => 1
  | some sku =>
    match bundleOf env a with
    | none => (env.metrics.products a.id).sale_mean
    | some p =>
      match p.seller with
      | none => (env.metrics.products a.id).sale_mean
      | some _ => (lookupFSku (facilityOf env a.facility_id).skus sku.id).sale_gamma

def consumption_hist_vec (env : SCEnv) (a : AgentInfo) : List ℚ :=
  match bundleOf env a with
  | some p =>
    match p.consumer with
    | some c =>
      (List.range env.settings.consumption_hist_len).map
        (fun (i : Nat) =>
          env.snapshots.consumer_latest_consumptions (env.tick - (i : Int)) c.node_index)
    | none => List.replicate env.settings.consumption_hist_len 0
  | none => List.replicate env.settings.consumption_hist_len 0

def pending_order_vec (env : SCEnv) (a : AgentInfo) : List ℚ :=
  match bundleOf env a with
  | some p =>
    match p.consumer with
    | some _ => (env.metrics.products a.id).pending_order_daily
    | none => List.replicate env.settings.pending_order_len 0
  | none => List.replicate env.settings.pending_order_len 0

def total_backlog_val (env : SCEnv) (a : AgentInfo) : ℚ :=
  match bundleOf env a with
  | some p =>
    match p.seller with
    | some sl => env.snapshots.seller_total_demand env.tick sl.node_index
    | none => 0
  | none => 0

def sale_hist_vec (env : SCEnv) (a : AgentInfo) : List ℚ :=
  match bundleOf env a with
  | some p =>
    match p.seller with
    | some sl =>
      (List.range env.settings.sale_hist_len).map
        (fun (i : Nat) => env.snapshots.seller_sold (env.tick - (i : Int)) sl.node_index)
    | none => List.replicate env.settings.sale_hist_len 0
  | none => List.replicate env.settings.sale_hist_len 0

def backlog_demand_hist_vec (env : SCEnv) (a : AgentInfo) : List ℚ :=
  match bundleOf env a with
  | some p =>
    match p.seller with
    | some sl =>
      (List.range env.settings.sale_hist_len).map
        (fun (i : Nat) => env.snapshots.seller_demand (env.tick - (i : Int)) sl.node_index)
    | none => List.replicate env.settings.sale_hist_len 0
  | none => List.replicate env.settings.sale_hist_len 0

def add_sale_features (env : SCEnv) (a : AgentInfo) (s : RawState) : RawState :=
  { s with
    sale_mean := sale_mean_val env a
    sale_std := sale_std_val env a
    sale_gamma := sale_gamma_val env a
    service_level := service_level_val a
    total_backlog_demand := total_backlog_val env a
    sale_hist := sale_hist_vec env a
    backlog_demand_hist := backlog_demand_hist_vec env a
    consumption_hist := consumption_hist_vec env a
    pending_order := pending_order_vec env a }

/-! ### `_add_vlt_features` and the consumer guard chain -/

/-- The guard chain shared by `_add_vlt_features` and
`_add_consumer_features`: a product-level agent whose bundle has a consumer
sub-unit and whose facility lists at least one upstream source for the
agent's sku.  On any failed guard the extractors leave their zero
defaults. -/
def consumer_ctx (env : SCEnv) (a : AgentInfo) :
    Option (AgentSku × ProductBundle × List Nat) :=
  match productSku a with
  | none => none
  | some sku =>
    match lookupA (facilityOf env a.facility_id).products sku.id with
    | none => none
    | some p =>
      match p.consumer with
      | none => none
      | some _ =>
        match lookupD (facilityOf env a.facility_id).upstreams sku.id [] with
        | [] => none
        | src :: rest => some (sku, p, src :: rest)

/-- Inner loop `for j, sku in enumerate(sku_list.values())`: when the
catalogue sku matches the agent's sku id, write `val` at flat slot
`base + j + 1` (`base` is `i * len(sku_list)` of the outer loop). -/
def vlt_inner (val : ℚ) (skuId base : Nat) : List SkuMeta → Nat → List ℚ → List ℚ
  | [], _, v => v
  | m :: rest, j, v =>
    vlt_inner val skuId base rest (j + 1)
      (if m.id = skuId then listSet v (base + j + 1) val else v)

/-- Outer loop `for i, source in enumerate(source_list)`, writing a
per-source value into the flat per-source-per-sku vector with stride
`len(sku_list)`. -/
def source_sku_loop (valOf : Nat → ℚ) (skuId stride : Nat) (skus : List SkuMeta) :
    List Nat → Nat → List ℚ → List ℚ
  | [], _, v => v
  | src :: rest, i, v =>
    source_sku_loop valOf skuId stride skus rest (i + 1)
      (vlt_inner (valOf src) skuId (i * stride) skus 0 v)

/-- The `state['vlt']` vector.  Note the written value is the AGENT'S OWN
facility's configured `vlt` for the sku
(`facility["skus"][sku.id].vlt`, line 334), independent of the source. -/
def vlt_vec (env : SCEnv) (a : AgentInfo) : List ℚ :=
  match consumer_ctx env a with
  | none => List.replicate (env.metrics.max_sources_per_facility * sku_number env) 0
  | some (sku, _, srcs) =>
    source_sku_loop
      (fun _ => (lookupFSku (facilityOf env a.facility_id).skus sku.id).vlt)
      sku.id env.skus.length env.skus srcs 0
      (List.replicate (env.metrics.max_sources_per_facility * sku_number env) 0)

def max_vlt_val (env : SCEnv) (a : AgentInfo) : ℚ :=
  match consumer_ctx env a with
  | none => 0
  | some (_, p, _) => p.skuproduct_max_vlt

def add_vlt_features (env : SCEnv) (a : AgentInfo) (s : RawState) : RawState :=
  { s with vlt := vlt_vec env a, max_vlt := max_vlt_val env a }

/-! ### `_add_consumer_features` -/

/-- The export mask: same double loop as the vlt vector, but the written
value is the UPSTREAM SOURCE facility's configured `vlt`
(`facility_levels[source]["skus"][sku.id].vlt`, line 437). -/
def export_mask_vec (env : SCEnv) (a : AgentInfo) : List ℚ :=
  match consumer_ctx env a with
  | none => List.replicate (env.metrics.max_sources_per_facility * sku_number env) 0
  | some (sku, _, srcs) =>
    source_sku_loop
      (fun src => (lookupFSku (facilityOf env src).skus sku.id).vlt)
      sku.id env.skus.length env.skus srcs 0
      (List.replicate (env.metrics.max_sources_per_facility * sku_number env) 0)

/-- `consumer_in_transit_orders`: for every catalogue sku, accumulate the
facility's in-transit orders for that sku id into the all-sku vector. -/
def cito_vec (env : SCEnv) (a : AgentInfo) : List ℚ :=
  match consumer_ctx env a with
  | none => List.replicate (sku_number env) 0
  | some _ =>
    env.skus.foldl
      (fun lv m =>
        listSet lv m.id
          (lv.getD m.id 0 + (env.metrics.facilities a.facility_id).in_transit_orders m.id))
      (List.replicate (sku_number env) 0)

def inv_in_stock (env : SCEnv) (a : AgentInfo) : ℚ :=
  match consumer_ctx env a with
  | none => 0
  | some (sku, _, _) => lookupD (cur_storage_products env a.facility_id) sku.id 0

def inv_in_transit (env : SCEnv) (a : AgentInfo) : ℚ :=
  match consumer_ctx env a with
  | none => 0
  | some (sku, _, _) => (cito_vec env a).getD sku.id 0

def inv_in_dist (env : SCEnv) (a : AgentInfo) : ℚ :=
  match consumer_ctx env a with
  | none => 0
  | some (sku, _, _) =>
    match (env.metrics.facilities a.facility_id).pending_order with
    | some po => po sku.id
    | none => 0

/-- `inventory_estimated = in_stock + in_transit - in_distribution`
(all three summands are 0 on any failed guard, matching the early
returns). -/
def inv_est (env : SCEnv) (a : AgentInfo) : ℚ :=
  inv_in_stock env a + inv_in_transit env a - inv_in_dist env a

def over_stock_flag (env : SCEnv) (a : AgentInfo) (s : RawState) : ℚ :=
  match consumer_ctx env a with
  | none => 0
  | some _ => if inv_est env a ≥ (1 / 2) * s.storage_capacity then 1 else 0

def out_of_stock_flag (env : SCEnv) (a : AgentInfo) : ℚ :=
  match consumer_ctx env a with
  | none => 0
  | some _ => if inv_est env a ≤ 0 then 1 else 0

/-- The reorder point
`max_vlt * sale_mean + sqrt(max_vlt) * sale_std * ppf(service_level)`,
read from the already-populated record fields. -/
def rop_val (env : SCEnv) (nl : NumLib) (a : AgentInfo) (s : RawState) : ℚ :=
  match consumer_ctx env a with
  | none => 0
  | some _ =>
    s.max_vlt * s.sale_mean + nl.sqrt s.max_vlt * s.sale_std * nl.normPpf s.service_level

def below_rop_flag (env : SCEnv) (nl : NumLib) (a : AgentInfo) (s : RawState) : ℚ :=
  match consumer_ctx env a with
  | none => 0
  | some _ => if inv_est env a < rop_val env nl a s then 1 else 0

def add_consumer_features (env : SCEnv) (nl : NumLib) (a : AgentInfo) (s : RawState) :
    RawState :=
  { s with
    consumer_source_export_mask := export_mask_vec env a
    consumer_source_inventory := List.replicate (sku_number env) 0
    consumer_in_transit_orders := cito_vec env a
    inventory_in_stock := inv_in_stock env a
    inventory_in_transit := inv_in_transit env a
    inventory_in_distribution := inv_in_dist env a
    inventory_estimated := inv_est env a
    inventory_rop := rop_val env nl a s
    is_over_stock := over_stock_flag env a s
    is_out_of_stock := out_of_stock_flag env a
    is_below_rop := below_rop_flag env nl a s }

/-! ### `_add_price_features`, `_add_global_features`, `_state` -/

def add_price_features (env : SCEnv) (a : AgentInfo) (s : RawState) : RawState :=
  { s with
    max_price := env.metrics.max_price
    sku_price := match productSku a with | none => 0 | some sku => sku.price
    sku_cost := match productSku a with | none => 0 | some sku => sku.cost }

def add_global_features (env : SCEnv) (s : RawState) : RawState :=
  { s with global_time := env.tick }

/-- The record after the first six extractors (everything before
`_add_consumer_features`); the consumer extractor reads `storage_capacity`,
`max_vlt`, `sale_mean`, `sale_std` and `service_level` from it. -/
def pre_consumer_state (env : SCEnv) (a : AgentInfo) : RawState :=
  add_vlt_features env a
    (add_sale_features env a
      (add_distributor_features env a
        (add_bom_features env a
          (add_storage_features env a
            (add_facility_features env a initState)))))

/-- `SCEnvWrapper._state`: the eight extractors in their fixed order. -/
def build_state (env : SCEnv) (nl : NumLib) (a : AgentInfo) : RawState :=
  add_price_features env a
    (add_consumer_features env nl a (pre_consumer_state env a))

/-- The completed per-agent record as assembled inside `_get_state` (the
extractors plus `global_time`). -/
def build_agent_state (env : SCEnv) (nl : NumLib) (a : AgentInfo) : RawState :=
  add_global_features env (build_state env nl a)

/-! ### `_serialize_state` -/

/-- The normalization rule:
`max(0.0, min(100.0, x / (reference + 0.01)))`. -/
def normalizeVal (ref v : ℚ) : ℚ :=
  max 0 (min 100 (v / (ref + 1 / 100)))

/-- `keys_in_state` flattened: the declared fixed serialization order.
The first group passes through raw; the other three groups are normalized
by `storage_capacity`, `sale_gamma` and `max_price` respectively. -/
def serialize_state (s : RawState) : List ℚ :=
  ([s.is_over_stock, s.is_out_of_stock, s.is_below_rop]
      ++ s.constraint_idx ++ s.is_accepted ++ s.consumption_hist)
    ++ ([normalizeVal s.storage_capacity s.storage_utilization]
    ++ ((([s.sale_std] ++ s.sale_hist ++ s.pending_order
          ++ [s.inventory_in_stock, s.inventory_in_transit,
              s.inventory_estimated, s.inventory_rop]).map
            (normalizeVal s.sale_gamma))
    ++ ([s.sku_price, s.sku_cost].map (normalizeVal s.max_price))))

/-- `_get_state`: one record per agent, stored under both the consumer and
the producer role, then serialized. -/
def get_state (env : SCEnv) (nl : NumLib) :
    List (Nat × List ℚ) × List (Nat × List ℚ) :=
  let records := env.agent_list.map (fun a => (a.id, build_agent_state env nl a))
  (records.map (fun p => (p.1, serialize_state p.2)),
   records.map (fun p => (p.1, serialize_state p.2)))

/-! ### `get_reward` -/

/-- The pair of per-entity reward maps returned by `get_reward`. -/
structure RewardMaps where
  producer : List (Nat × ℚ)
  consumer : List (Nat × ℚ)

/-- `parent_facility_balance`: per balance-sheet entity, the owning
facility's balance when the entity id is a known sub-unit, else its own
balance. -/
def parent_facility_balance (u2f : List (Nat × Nat)) (sheet : List (Nat × ℚ)) :
    List (Nat × ℚ) :=
  sheet.map (fun p =>
    (p.1, match lookupA u2f p.1 with
          | some fid => lookupD sheet fid 0
          | none => p.2))

/-- `SCEnvWrapper.get_reward`.  The `tick` argument is accepted and ignored,
as in the source; the computation reads only the cached metrics
(`step_balance_sheet`, and `step_rewards` which is read but unused) and the
configured consumer weight. -/
def get_reward (env : SCEnv) (_tick : Option Int) : RewardMaps :=
  let sheet := env.metrics.step_balance_sheet
  let wc := env.settings.global_reward_weight_consumer
  let parent := parent_facility_balance (unit2facility env.facilities) sheet
  { producer := sheet.map (fun p => p)
    consumer := sheet.map (fun p => (p.1, wc * lookupD parent p.1 0 + (1 - wc) * p.2)) }

/-! ### `get_action` -/

/-- A typed simulation action: `ConsumerAction(agent_id, product_id,
source_id, quantity, 1)` or `ManufactureAction(agent_id, quantity)`. -/
inductive TypedAction where
  | consumer (agent_id product_id source_id : Nat) (quantity : ℚ) (multiplier : Nat)
  | manufacture (agent_id : Nat) (quantity : ℚ)
  deriving DecidableEq, Repr

/-- Modelled from the spec: the `state_info` side-table mapping agent id to
`(product_id, source_id)`.  `get_action` reads `self.state_info`, but no
code under src ever assigns that attribute; the spec describes it as
populated while building consumer-role state. -/
structure StateInfoEntry where
  product_id : Nat
  source_id : Nat
  deriving DecidableEq, Repr

/-- `SCEnvWrapper.get_action`: ids found in the side-table become consumer
(replenishment) actions with multiplier 1; every other id becomes a
manufacture (production-order) action. -/
def get_action (state_info : List (Nat × StateInfoEntry))
    (action_by_agent : List (Nat × ℚ)) : List (Nat × TypedAction) :=
  action_by_agent.map (fun p =>
    match lookupA state_info p.1 with
    | some e => (p.1, TypedAction.consumer p.1 e.product_id e.source_id p.2 1)
    | none => (p.1, TypedAction.manufacture p.1 p.2))

/-! ### A concrete topology used by witnesses and counterexamples

Two facilities: facility 1 (the agents' facility) holding skus 1 and 2, with
facility 2 as the single upstream source for sku 1; facility 1 configures
`vlt = 3` for sku 1 while the upstream source configures `vlt = 7`. -/

def bundleA : ProductBundle :=
  { skuproduct := ⟨20, 2⟩, skuproduct_max_vlt := 3, seller := none
    consumer := some ⟨30, 3⟩, manufacture := none }

def bundleB : ProductBundle :=
  { skuproduct := ⟨21, 4⟩, skuproduct_max_vlt := 0, seller := none
    consumer := none, manufacture := none }

def facility1 : FacilityLevel :=
  { node_index := 0, upstreams := [(1, [2])]
    skus := [(1, ⟨3, 4⟩), (2, ⟨5, 6⟩)]
    storage := ⟨10, 0⟩, storage_capacity := 100, distribution := none
    products := [(1, bundleA), (2, bundleB)] }

def facility2 : FacilityLevel :=
  { node_index := 1, upstreams := [], skus := [(1, ⟨7, 1⟩)]
    storage := ⟨40, 5⟩, storage_capacity := 50, distribution := none
    products := [] }

def agentF : AgentInfo := ⟨1, 1, 0, true, none⟩

def agentP : AgentInfo := ⟨20, 1, 1, false, some ⟨1, 10, 5, 1⟩⟩

def agentQ : AgentInfo := ⟨21, 1, 1, false, some ⟨2, 3, 1, 1⟩⟩

def envC : SCEnv :=
  { tick := 7
    settings :=
      { global_reward_weight_consumer := 1 / 2, constraint_state_hist_len := 2
        sale_hist_len := 2, consumption_hist_len := 2, pending_order_len := 2 }
    agent_types := ["f", "p"]
    skus := [⟨1⟩, ⟨2⟩]
    facilities := [(1, facility1), (2, facility2)]
    agent_list := [agentF, agentP, agentQ]
    metrics :=
      { max_sources_per_facility := 1, max_price := 10
        facilities := fun _ =>
          { total_balance_sheet_total := 5, in_transit_orders := fun _ => 2
            pending_order := some (fun _ => 1) }
        products := fun _ =>
          { total_balance_sheet_total := 1, sale_mean := 2, sale_std := 1
            pending_order_daily := [1, 1] }
        step_balance_sheet := [(1, 1000), (20, 200)]
        step_rewards := [] }
    snapshots :=
      { storage_product_list := fun _ _ => [1]
        storage_product_number := fun _ _ => [4]
        consumer_latest_consumptions := fun _ _ => 0
        seller_total_demand := fun _ _ => 0
        seller_sold := fun _ _ => 0
        seller_demand := fun _ _ => 0
        distribution_states := fun _ _ => (0, 0) } }

def nlC : NumLib := { sqrt := fun _ => 0, normPpf := fun _ => 0 }

/-! ### Projection lemmas: which extractor owns each field of the final
record.  All hold by unfolding the chain of record updates. -/

@[simp] theorem bas_constraint_idx (env : SCEnv) (nl : NumLib) (a : AgentInfo) :
    (build_agent_state env nl a).constraint_idx = [0] := rfl

@[simp] theorem bas_is_accepted (env : SCEnv) (nl : NumLib) (a : AgentInfo) :
    (build_agent_state env nl a).is_accepted =
      List.replicate env.settings.constraint_state_hist_len 0 := rfl

@[simp] theorem bas_consumption_hist (env : SCEnv) (nl : NumLib) (a : AgentInfo) :
    (build_agent_state env nl a).consumption_hist = consumption_hist_vec env a := rfl

@[simp] theorem bas_sale_hist (env : SCEnv) (nl : NumLib) (a : AgentInfo) :
    (build_agent_state env nl a).sale_hist = sale_hist_vec env a := rfl

@[simp] theorem bas_pending_order (env : SCEnv) (nl : NumLib) (a : AgentInfo) :
    (build_agent_state env nl a).pending_order = pending_order_vec env a := rfl

@[simp] theorem bas_storage_capacity (env : SCEnv) (nl : NumLib) (a : AgentInfo) :
    (build_agent_state env nl a).storage_capacity =
      (facilityOf env a.facility_id).storage_capacity := rfl

@[simp] theorem bas_sale_mean (env : SCEnv) (nl : NumLib) (a : AgentInfo) :
    (build_agent_state env nl a).sale_mean = sale_mean_val env a := rfl

@[simp] theorem bas_sale_std (env : SCEnv) (nl : NumLib) (a : AgentInfo) :
    (build_agent_state env nl a).sale_std = sale_std_val env a := rfl

@[simp] theorem bas_service_level (env : SCEnv) (nl : NumLib) (a : AgentInfo) :
    (build_agent_state env nl a).service_level = service_level_val a := rfl

@[simp] theorem bas_max_vlt (env : SCEnv) (nl : NumLib) (a : AgentInfo) :
    (build_agent_state env nl a).max_vlt = max_vlt_val env a := rfl

@[simp] theorem bas_vlt (env : SCEnv) (nl : NumLib) (a : AgentInfo) :
    (build_agent_state env nl a).vlt = vlt_vec env a := rfl

@[simp] theorem bas_export_mask (env : SCEnv) (nl : NumLib) (a : AgentInfo) :
    (build_agent_state env nl a).consumer_source_export_mask = export_mask_vec env a := rfl

@[simp] theorem bas_source_inventory (env : SCEnv) (nl : NumLib) (a : AgentInfo) :
    (build_agent_state env nl a).consumer_source_inventory =
      List.replicate (sku_number env) 0 := rfl

@[simp] theorem bas_cito (env : SCEnv) (nl : NumLib) (a : AgentInfo) :
    (build_agent_state env nl a).consumer_in_transit_orders = cito_vec env a := rfl

@[simp] theorem bas_inv_in_stock (env : SCEnv) (nl : NumLib) (a : AgentInfo) :
    (build_agent_state env nl a).inventory_in_stock = inv_in_stock env a := rfl

@[simp] theorem bas_inv_in_transit (env : SCEnv) (nl : NumLib) (a : AgentInfo) :
    (build_agent_state env nl a).inventory_in_transit = inv_in_transit env a := rfl

@[simp] theorem bas_inv_in_dist (env : SCEnv) (nl : NumLib) (a : AgentInfo) :
    (build_agent_state env nl a).inventory_in_distribution = inv_in_dist env a := rfl

@[simp] theorem bas_inv_est (env : SCEnv) (nl : NumLib) (a : AgentInfo) :
    (build_agent_state env nl a).inventory_estimated = inv_est env a := rfl

@[simp] theorem bas_rop (env : SCEnv) (nl : NumLib) (a : AgentInfo) :
    (build_agent_state env nl a).inventory_rop =
      rop_val env nl a (pre_consumer_state env a) := rfl

@[simp] theorem bas_over_stock (env : SCEnv) (nl : NumLib) (a : AgentInfo) :
    (build_agent_state env nl a).is_over_stock =
      over_stock_flag env a (pre_consumer_state env a) := rfl

@[simp] theorem bas_out_of_stock (env : SCEnv) (nl : NumLib) (a : AgentInfo) :
    (build_agent_state env nl a).is_out_of_stock = out_of_stock_flag env a := rfl

@[simp] theorem bas_below_rop (env : SCEnv) (nl : NumLib) (a : AgentInfo) :
    (build_agent_state env nl a).is_below_rop =
      below_rop_flag env nl a (pre_consumer_state env a) := rfl

@[simp] theorem pcs_storage_capacity (env : SCEnv) (a : AgentInfo) :
    (pre_consumer_state env a).storage_capacity =
      (facilityOf env a.facility_id).storage_capacity := rfl

@[simp] theorem pcs_max_vlt (env : SCEnv) (a : AgentInfo) :
    (pre_consumer_state env a).max_vlt = max_vlt_val env a := rfl

@[simp] theorem pcs_sale_mean (env : SCEnv) (a : AgentInfo) :
    (pre_consumer_state env a).sale_mean = sale_mean_val env a := rfl

@[simp] theorem pcs_sale_std (env : SCEnv) (a : AgentInfo) :
    (pre_consumer_state env a).sale_std = sale_std_val env a := rfl

@[simp] theorem pcs_service_level (env : SCEnv) (a : AgentInfo) :
    (pre_consumer_state env a).service_level = service_level_val a := rfl

/-! ### Resolving the consumer guard chain -/

theorem consumer_ctx_some (env : SCEnv) (a : AgentInfo) (sku : AgentSku)
    (p : ProductBundle) (c : UnitBaseInfo) (srcs : List Nat)
    (hf : a.is_facility = false) (hs : a.sku = some sku)
    (hp : lookupA (facilityOf env a.facility_id).products sku.id = some p)
    (hc : p.consumer = some c)
    (hu : lookupD (facilityOf env a.facility_id).upstreams sku.id [] = srcs)
    (hne : srcs ≠ []) :
    consumer_ctx env a = some (sku, p, srcs) := by
  cases srcs with
  | nil => exact absurd rfl hne
  | cons s rest => simp [consumer_ctx, productSku, hf, hs, hp, hc, hu]

theorem consumer_ctx_none_of_no_consumer (env : SCEnv) (a : AgentInfo)
    (sku : AgentSku) (p : ProductBundle)
    (hf : a.is_facility = false) (hs : a.sku = some sku)
    (hp : lookupA (facilityOf env a.facility_id).products sku.id = some p)
    (hc : p.consumer = none) :
    consumer_ctx env a = none := by
  simp [consumer_ctx, productSku, hf, hs, hp, hc]

theorem consumer_ctx_none_of_no_source (env : SCEnv) (a : AgentInfo)
    (sku : AgentSku)
    (hf : a.is_facility = false) (hs : a.sku = some sku)
    (hu : lookupD (facilityOf env a.facility_id).upstreams sku.id [] = []) :
    consumer_ctx env a = none := by
  have hps : productSku a = some sku := by simp [productSku, hf, hs]
  simp only [consumer_ctx, hps]
  cases hp : lookupA (facilityOf env a.facility_id).products sku.id with
  | none => simp
  | some p =>
    cases hc : p.consumer with
    | none => simp [hc]
    | some c => simp [hc, hu]

/-! ### Field-length lemmas used by the serialized-width theorem -/

theorem consumption_hist_vec_length (env : SCEnv) (a : AgentInfo) :
    (consumption_hist_vec env a).length = env.settings.consumption_hist_len := by
  unfold consumption_hist_vec
  cases hb : bundleOf env a with
  | none => simp
  | some p =>
    cases hc : p.consumer with
    | none => simp [hc]
    | some c => simp [hc]

theorem sale_hist_vec_length (env : SCEnv) (a : AgentInfo) :
    (sale_hist_vec env a).length = env.settings.sale_hist_len := by
  unfold sale_hist_vec
  cases hb : bundleOf env a with
  | none => simp
  | some p =>
    cases hc : p.seller with
    | none => simp [hc]
    | some sl => simp [hc]

theorem pending_order_vec_length (env : SCEnv) (a : AgentInfo)
    (hpo : (env.metrics.products a.id).pending_order_daily.length =
      env.settings.pending_order_len) :
    (pending_order_vec env a).length = env.settings.pending_order_len := by
  unfold pending_order_vec
  cases hb : bundleOf env a with
  | none => simp
  | some p =>
    cases hc : p.consumer with
    | none => simp [hc]
    | some c => simpa [hc] using hpo

/-- Claim C1, counterexample: `serialize` does NOT emit every field of the
raw state record.  Two records that differ in the `max_vlt` field (one of
the fields `keys_in_state` omits) serialize to the same vector. -/
theorem C1_counterexample :
    serialize_state { initState with max_vlt := 1 } = serialize_state initState
    ∧ ({ initState with max_vlt := 1 } : RawState).max_vlt ≠ initState.max_vlt :=
  ⟨rfl, by decide⟩

/-- Claim C1 (amended): `serialize` emits the fixed documented SUBSET of the
record's fields (`keys_in_state`), each raw or normalized, and the resulting
vector length equals that field-order's total width,
`12 + constraint_state_hist_len + consumption_hist_len + sale_hist_len
+ pending_order_len`, identical across all agents and all ticks (given the
engine contract that `pending_order_daily` has the configured window
length). -/
theorem C1_serialized_width (env : SCEnv) (nl : NumLib) (a : AgentInfo)
    (hpo : (env.metrics.products a.id).pending_order_daily.length =
      env.settings.pending_order_len) :
    (serialize_state (build_agent_state env nl a)).length =
      12 + env.settings.constraint_state_hist_len + env.settings.consumption_hist_len
        + env.settings.sale_hist_len + env.settings.pending_order_len := by
  simp [serialize_state, consumption_hist_vec_length, sale_hist_vec_length,
    pending_order_vec_length env a hpo]
  omega

/-- Witness for C1: the width theorem applied to the concrete topology. -/
theorem C1_witness :
    (envC.metrics.products agentP.id).pending_order_daily.length =
        envC.settings.pending_order_len
    ∧ (serialize_state (build_agent_state envC nlC agentP)).length =
        12 + envC.settings.constraint_state_hist_len + envC.settings.consumption_hist_len
          + envC.settings.sale_hist_len + envC.settings.pending_order_len :=
  ⟨rfl, C1_serialized_width envC nlC agentP rfl⟩

/-- Unconditional clamp bounds for the normalization rule. -/
theorem normalizeVal_bounds (r v : ℚ) :
    0 ≤ normalizeVal r v ∧ normalizeVal r v ≤ 100 :=
  ⟨le_max_left 0 _, max_le (by norm_num) (min_le_left 100 _)⟩

/-- Claim C5: every serialized field that declares a normalize-by reference
is emitted as `clamp(v / (reference + 0.01), 0, 100)`, hence lies in
`[0, 100]` for any raw value and any reference ≥ 0, while the fields of the
reference-free group pass through unmodified. -/
theorem C5_normalization :
    (∀ r v : ℚ, 0 ≤ r → 0 ≤ normalizeVal r v ∧ normalizeVal r v ≤ 100)
    ∧ (∀ s : RawState,
        (serialize_state s).take
            (3 + s.constraint_idx.length + s.is_accepted.length + s.consumption_hist.length)
          = [s.is_over_stock, s.is_out_of_stock, s.is_below_rop]
              ++ s.constraint_idx ++ s.is_accepted ++ s.consumption_hist)
    ∧ (∀ (s : RawState) (x : ℚ),
        0 ≤ s.storage_capacity → 0 ≤ s.sale_gamma → 0 ≤ s.max_price →
        x ∈ (serialize_state s).drop
            (3 + s.constraint_idx.length + s.is_accepted.length + s.consumption_hist.length) →
        0 ≤ x ∧ x ≤ 100) := by
  have hlen : ∀ s : RawState,
      ([s.is_over_stock, s.is_out_of_stock, s.is_below_rop]
        ++ s.constraint_idx ++ s.is_accepted ++ s.consumption_hist).length =
      3 + s.constraint_idx.length + s.is_accepted.length + s.consumption_hist.length := by
    intro s; simp; omega
  refine ⟨fun r v _ => normalizeVal_bounds r v, fun s => ?_, fun s x _ _ _ hx => ?_⟩
  · rw [← hlen s]
    exact List.take_left _ _
  · rw [← hlen s, serialize_state, List.drop_left] at hx
    simp only [List.mem_append, List.mem_map, List.mem_singleton, List.mem_cons,
      List.not_mem_nil, or_false] at hx
    rcases hx with hx | ⟨y, _, hy⟩ | ⟨y, _, hy⟩
    · exact hx ▸ normalizeVal_bounds _ _
    · exact hy ▸ normalizeVal_bounds _ _
    · exact hy ▸ normalizeVal_bounds _ _

/-- Witness for C5: the bounds at `r = 1, v = 5`, and the membership part at
the all-zero record. -/
theorem C5_witness :
    (0 ≤ (1 : ℚ) ∧ 0 ≤ normalizeVal 1 5 ∧ normalizeVal 1 5 ≤ 100)
    ∧ (0 ≤ initState.storage_capacity ∧ 0 ≤ initState.sale_gamma
        ∧ 0 ≤ initState.max_price
        ∧ (0 : ℚ) ∈ (serialize_state initState).drop
            (3 + initState.constraint_idx.length + initState.is_accepted.length
              + initState.consumption_hist.length)
        ∧ 0 ≤ (0 : ℚ) ∧ (0 : ℚ) ≤ 100) := by
  have hmem : (0 : ℚ) ∈ (serialize_state initState).drop
      (3 + initState.constraint_idx.length + initState.is_accepted.length
        + initState.consumption_hist.length) := by
    norm_num [serialize_state, initState, normalizeVal]
  exact ⟨⟨by norm_num, C5_normalization.1 1 5 (by norm_num)⟩,
    ⟨le_refl 0, le_refl 0, le_refl 0, hmem,
      C5_normalization.2.2 initState 0 (le_refl 0) (le_refl 0) (le_refl 0) hmem⟩⟩

/-- Claim C4: for a product-level agent with a consumer sub-unit and a
non-empty upstream source list, the inventory estimate is
`in_stock + in_transit - in_distribution`, and the three flags are each
exactly the comparison of the already-computed estimate against
half the storage capacity, zero, and the reorder point. -/
theorem C4_inventory_estimate_and_flags
    (env : SCEnv) (nl : NumLib) (a : AgentInfo) (sku : AgentSku)
    (p : ProductBundle) (c : UnitBaseInfo) (srcs : List Nat)
    (hf : a.is_facility = false) (hs : a.sku = some sku)
    (hp : lookupA (facilityOf env a.facility_id).products sku.id = some p)
    (hc : p.consumer = some c)
    (hu : lookupD (facilityOf env a.facility_id).upstreams sku.id [] = srcs)
    (hne : srcs ≠ []) :
    (build_agent_state env nl a).inventory_estimated =
        (build_agent_state env nl a).inventory_in_stock
          + (build_agent_state env nl a).inventory_in_transit
          - (build_agent_state env nl a).inventory_in_distribution
    ∧ (build_agent_state env nl a).is_over_stock =
        (if (build_agent_state env nl a).inventory_estimated ≥
            (1 / 2) * (build_agent_state env nl a).storage_capacity then 1 else 0)
    ∧ (build_agent_state env nl a).is_out_of_stock =
        (if (build_agent_state env nl a).inventory_estimated ≤ 0 then 1 else 0)
    ∧ (build_agent_state env nl a).is_below_rop =
        (if (build_agent_state env nl a).inventory_estimated <
            (build_agent_state env nl a).inventory_rop then 1 else 0) := by
  have hctx := consumer_ctx_some env a sku p c srcs hf hs hp hc hu hne
  refine ⟨rfl, ?_, ?_, ?_⟩
  · simp only [bas_over_stock, bas_inv_est, bas_storage_capacity, over_stock_flag,
      hctx, pcs_storage_capacity]
  · simp only [bas_out_of_stock, bas_inv_est, out_of_stock_flag, hctx]
  · simp only [bas_below_rop, bas_inv_est, bas_rop, below_rop_flag, hctx]

/-- Witness for C4 at the concrete product agent of the concrete topology. -/
theorem C4_witness :
    agentP.is_facility = false
    ∧ agentP.sku = some ⟨1, 10, 5, 1⟩
    ∧ lookupA (facilityOf envC agentP.facility_id).products 1 = some bundleA
    ∧ bundleA.consumer = some ⟨30, 3⟩
    ∧ lookupD (facilityOf envC agentP.facility_id).upstreams 1 [] = [2]
    ∧ ([2] : List Nat) ≠ []
    ∧ ((build_agent_state envC nlC agentP).inventory_estimated =
          (build_agent_state envC nlC agentP).inventory_in_stock
            + (build_agent_state envC nlC agentP).inventory_in_transit
            - (build_agent_state envC nlC agentP).inventory_in_distribution
        ∧ (build_agent_state envC nlC agentP).is_over_stock =
            (if (build_agent_state envC nlC agentP).inventory_estimated ≥
                (1 / 2) * (build_agent_state envC nlC agentP).storage_capacity then 1 else 0)
        ∧ (build_agent_state envC nlC agentP).is_out_of_stock =
            (if (build_agent_state envC nlC agentP).inventory_estimated ≤ 0 then 1 else 0)
        ∧ (build_agent_state envC nlC agentP).is_below_rop =
            (if (build_agent_state envC nlC agentP).inventory_estimated <
                (build_agent_state envC nlC agentP).inventory_rop then 1 else 0)) :=
  ⟨rfl, rfl, by decide, rfl, by decide, by decide,
    C4_inventory_estimate_and_flags envC nlC agentP ⟨1, 10, 5, 1⟩ bundleA ⟨30, 3⟩ [2]
      rfl rfl (by decide) rfl (by decide) (by decide)⟩

/-- Claim C6: the reorder point follows the formula
`max_vlt * sale_mean + sqrt(max_vlt) * sale_std * ppf(service_level)`
(with `sqrt` and the inverse normal CDF supplied by the external numeric
library); and with no upstream sources configured, `max_vlt = 0`, the
reorder point is 0, and the export mask is all zeros. -/
theorem C6_reorder_point :
    (∀ (env : SCEnv) (nl : NumLib) (a : AgentInfo) (sku : AgentSku)
        (p : ProductBundle) (c : UnitBaseInfo) (srcs : List Nat),
        a.is_facility = false → a.sku = some sku →
        lookupA (facilityOf env a.facility_id).products sku.id = some p →
        p.consumer = some c →
        lookupD (facilityOf env a.facility_id).upstreams sku.id [] = srcs →
        srcs ≠ [] →
        (build_agent_state env nl a).inventory_rop =
          (build_agent_state env nl a).max_vlt * (build_agent_state env nl a).sale_mean
            + nl.sqrt (build_agent_state env nl a).max_vlt
              * (build_agent_state env nl a).sale_std
              * nl.normPpf (build_agent_state env nl a).service_level)
    ∧ (∀ (env : SCEnv) (nl : NumLib) (a : AgentInfo) (sku : AgentSku),
        a.is_facility = false → a.sku = some sku →
        lookupD (facilityOf env a.facility_id).upstreams sku.id [] = [] →
        (build_agent_state env nl a).max_vlt = 0
        ∧ (build_agent_state env nl a).inventory_rop = 0
        ∧ (build_agent_state env nl a).consumer_source_export_mask =
            List.replicate (env.metrics.max_sources_per_facility * sku_number env) 0) := by
  constructor
  · intro env nl a sku p c srcs hf hs hp hc hu hne
    have hctx := consumer_ctx_some env a sku p c srcs hf hs hp hc hu hne
    simp only [bas_rop, rop_val, hctx, bas_max_vlt, pcs_max_vlt, bas_sale_mean,
      pcs_sale_mean, bas_sale_std, pcs_sale_std, bas_service_level, pcs_service_level]
  · intro env nl a sku hf hs hu
    have hctx := consumer_ctx_none_of_no_source env a sku hf hs hu
    refine ⟨?_, ?_, ?_⟩
    · simp only [bas_max_vlt, max_vlt_val, hctx]
    · simp only [bas_rop, rop_val, hctx]
    · simp only [bas_export_mask, export_mask_vec, hctx]

/-- Witness for C6: the formula at the sourced product agent, and the
no-source case at the product agent for sku 2. -/
theorem C6_witness :
    (agentP.is_facility = false
      ∧ agentP.sku = some ⟨1, 10, 5, 1⟩
      ∧ lookupA (facilityOf envC agentP.facility_id).products 1 = some bundleA
      ∧ bundleA.consumer = some ⟨30, 3⟩
      ∧ lookupD (facilityOf envC agentP.facility_id).upstreams 1 [] = [2]
      ∧ ([2] : List Nat) ≠ []
      ∧ (build_agent_state envC nlC agentP).inventory_rop =
          (build_agent_state envC nlC agentP).max_vlt
              * (build_agent_state envC nlC agentP).sale_mean
            + nlC.sqrt (build_agent_state envC nlC agentP).max_vlt
              * (build_agent_state envC nlC agentP).sale_std
              * nlC.normPpf (build_agent_state envC nlC agentP).service_level)
    ∧ (agentQ.is_facility = false
      ∧ agentQ.sku = some ⟨2, 3, 1, 1⟩
      ∧ lookupD (facilityOf envC agentQ.facility_id).upstreams 2 [] = []
      ∧ (build_agent_state envC nlC agentQ).max_vlt = 0
      ∧ (build_agent_state envC nlC agentQ).inventory_rop = 0
      ∧ (build_agent_state envC nlC agentQ).consumer_source_export_mask =
          List.replicate (envC.metrics.max_sources_per_facility * sku_number envC) 0) :=
  ⟨⟨rfl, rfl, by decide, rfl, by decide, by decide,
      C6_reorder_point.1 envC nlC agentP ⟨1, 10, 5, 1⟩ bundleA ⟨30, 3⟩ [2]
        rfl rfl (by decide) rfl (by decide) (by decide)⟩,
    ⟨rfl, rfl, by decide,
      C6_reorder_point.2 envC nlC agentQ ⟨2, 3, 1, 1⟩ rfl rfl (by decide)⟩⟩

/-- Claim C8: a product-level agent whose bundle has no consumer sub-unit
gets the documented zero defaults for every consumer/inventory-derived
field, with no error (the embedding of `buildAgentState` is total and the
missing-consumer guard simply leaves the defaults). -/
theorem C8_no_consumer_zero_defaults
    (env : SCEnv) (nl : NumLib) (a : AgentInfo) (sku : AgentSku) (p : ProductBundle)
    (hf : a.is_facility = false) (hs : a.sku = some sku)
    (hp : lookupA (facilityOf env a.facility_id).products sku.id = some p)
    (hc : p.consumer = none) :
    (build_agent_state env nl a).inventory_in_stock = 0
    ∧ (build_agent_state env nl a).inventory_in_transit = 0
    ∧ (build_agent_state env nl a).inventory_in_distribution = 0
    ∧ (build_agent_state env nl a).inventory_estimated = 0
    ∧ (build_agent_state env nl a).inventory_rop = 0
    ∧ (build_agent_state env nl a).is_over_stock = 0
    ∧ (build_agent_state env nl a).is_out_of_stock = 0
    ∧ (build_agent_state env nl a).is_below_rop = 0
    ∧ (build_agent_state env nl a).consumer_source_export_mask =
        List.replicate (env.metrics.max_sources_per_facility * sku_number env) 0
    ∧ (build_agent_state env nl a).consumer_in_transit_orders =
        List.replicate (sku_number env) 0
    ∧ (build_agent_state env nl a).consumer_source_inventory =
        List.replicate (sku_number env) 0 := by
  have hctx := consumer_ctx_none_of_no_consumer env a sku p hf hs hp hc
  have hin : inv_in_stock env a = 0 := by simp only [inv_in_stock, hctx]
  have hit : inv_in_transit env a = 0 := by simp only [inv_in_transit, hctx]
  have hid : inv_in_dist env a = 0 := by simp only [inv_in_dist, hctx]
  refine ⟨hin, hit, hid, ?_, ?_, ?_, ?_, ?_, ?_, ?_, rfl⟩
  · show inv_est env a = 0
    rw [inv_est, hin, hit, hid]; norm_num
  · simp only [bas_rop, rop_val, hctx]
  · simp only [bas_over_stock, over_stock_flag, hctx]
  · simp only [bas_out_of_stock, out_of_stock_flag, hctx]
  · simp only [bas_below_rop, below_rop_flag, hctx]
  · simp only [bas_export_mask, export_mask_vec, hctx]
  · simp only [bas_cito, cito_vec, hctx]

/-- Witness for C8 at the product agent for sku 2, whose bundle has no
consumer sub-unit. -/
theorem C8_witness :
    agentQ.is_facility = false
    ∧ agentQ.sku = some ⟨2, 3, 1, 1⟩
    ∧ lookupA (facilityOf envC agentQ.facility_id).products 2 = some bundleB
    ∧ bundleB.consumer = none
    ∧ ((build_agent_state envC nlC agentQ).inventory_in_stock = 0
      ∧ (build_agent_state envC nlC agentQ).inventory_in_transit = 0
      ∧ (build_agent_state envC nlC agentQ).inventory_in_distribution = 0
      ∧ (build_agent_state envC nlC agentQ).inventory_estimated = 0
      ∧ (build_agent_state envC nlC agentQ).inventory_rop = 0
      ∧ (build_agent_state envC nlC agentQ).is_over_stock = 0
      ∧ (build_agent_state envC nlC agentQ).is_out_of_stock = 0
      ∧ (build_agent_state envC nlC agentQ).is_below_rop = 0
      ∧ (build_agent_state envC nlC agentQ).consumer_source_export_mask =
          List.replicate (envC.metrics.max_sources_per_facility * sku_number envC) 0
      ∧ (build_agent_state envC nlC agentQ).consumer_in_transit_orders =
          List.replicate (sku_number envC) 0
      ∧ (build_agent_state envC nlC agentQ).consumer_source_inventory =
          List.replicate (sku_number envC) 0) :=
  ⟨rfl, rfl, by decide, rfl,
    C8_no_consumer_zero_defaults envC nlC agentQ ⟨2, 3, 1, 1⟩ bundleB
      rfl rfl (by decide) rfl⟩

/-- Claim C9: the consumer-role and producer-role outputs of `getState` are
identical, because both roles serialize the same per-agent record. -/
theorem C9_roles_equal (env : SCEnv) (nl : NumLib) :
    (get_state env nl).1 = (get_state env nl).2 := rfl

/-- Claim C10: `getReward` ignores its tick argument; for any two tick
values (including the absent default) over the same cached metrics it
returns the same reward maps. -/
theorem C10_reward_tick_independent (env : SCEnv) (t1 t2 : Option Int) :
    get_reward env t1 = get_reward env t2 := rfl

/-! ### Action translation (C7) -/

/-- Claim C7, counterexample: an agent id that is unknown (absent from the
side-table and from any agent role) is NOT a fatal error: `get_action`
silently translates it to a production-order action. -/
theorem C7_counterexample :
    get_action [(1, ⟨5, 2⟩)] [(999, 3)] = [(999, TypedAction.manufacture 999 3)]
    ∧ lookupA [(1, (⟨5, 2⟩ : StateInfoEntry))] 999 = none :=
  ⟨rfl, rfl⟩

/-- Claim C7 (amended): ids present in the replenishment side-table become
replenishment actions `(agent_id, product_id, source_id, quantity, 1)`;
EVERY other id — known producer or entirely unknown — becomes a
production-order action `(agent_id, quantity)`; no id is rejected. -/
theorem C7_action_translation :
    (∀ (si : List (Nat × StateInfoEntry)) (acts : List (Nat × ℚ))
        (aid : Nat) (q : ℚ) (e : StateInfoEntry),
        (aid, q) ∈ acts → lookupA si aid = some e →
        (aid, TypedAction.consumer aid e.product_id e.source_id q 1) ∈ get_action si acts)
    ∧ (∀ (si : List (Nat × StateInfoEntry)) (acts : List (Nat × ℚ)) (aid : Nat) (q : ℚ),
        (aid, q) ∈ acts → lookupA si aid = none →
        (aid, TypedAction.manufacture aid q) ∈ get_action si acts) := by
  constructor
  · intro si acts aid q e hmem hl
    have h2 := List.mem_map_of_mem
      (fun p : Nat × ℚ =>
        match lookupA si p.1 with
        | some e => (p.1, TypedAction.consumer p.1 e.product_id e.source_id p.2 1)
        | none => (p.1, TypedAction.manufacture p.1 p.2)) hmem
    simpa [get_action, hl] using h2
  · intro si acts aid q hmem hl
    have h2 := List.mem_map_of_mem
      (fun p : Nat × ℚ =>
        match lookupA si p.1 with
        | some e => (p.1, TypedAction.consumer p.1 e.product_id e.source_id p.2 1)
        | none => (p.1, TypedAction.manufacture p.1 p.2)) hmem
    simpa [get_action, hl] using h2

/-- Witness for C7: a tracked id becomes a replenishment action, an
untracked one a production-order action. -/
theorem C7_witness :
    (((1 : Nat), (4 : ℚ)) ∈ [((1 : Nat), (4 : ℚ)), (999, 3)]
      ∧ lookupA [(1, (⟨5, 2⟩ : StateInfoEntry))] 1 = some ⟨5, 2⟩
      ∧ (1, TypedAction.consumer 1 5 2 4 1) ∈
          get_action [(1, ⟨5, 2⟩)] [(1, 4), (999, 3)])
    ∧ (((999 : Nat), (3 : ℚ)) ∈ [((1 : Nat), (4 : ℚ)), (999, 3)]
      ∧ lookupA [(1, (⟨5, 2⟩ : StateInfoEntry))] 999 = none
      ∧ (999, TypedAction.manufacture 999 3) ∈
          get_action [(1, ⟨5, 2⟩)] [(1, 4), (999, 3)]) :=
  ⟨⟨by decide, rfl,
      C7_action_translation.1 [(1, ⟨5, 2⟩)] [(1, 4), (999, 3)] 1 4 ⟨5, 2⟩ (by decide) rfl⟩,
    ⟨by decide, rfl,
      C7_action_translation.2 [(1, ⟨5, 2⟩)] [(1, 4), (999, 3)] 999 3 (by decide) rfl⟩⟩

/-! ### Reward aggregation (C2, C10) -/

/-- Association lookup through a key-preserving map. -/
theorem lookupA_map_keyed {β γ : Type} (g : Nat → β → γ) :
    ∀ (l : List (Nat × β)) (k : Nat),
      lookupA (l.map (fun p => (p.1, g p.1 p.2))) k = (lookupA l k).map (g k) := by
  intro l
  induction l with
  | nil => intro k; rfl
  | cons q rest ih =>
    intro k
    by_cases h : q.1 = k
    · subst h; simp [lookupA]
    · simp [lookupA, h, ih]

/-- The blending parent value of an entity: its owning facility's balance
when the entity is a tracked sub-unit, else its own balance. -/
def parent_val (env : SCEnv) (x : Nat) (b : ℚ) : ℚ :=
  match lookupA (unit2facility env.facilities) x with
  | some fid => lookupD env.metrics.step_balance_sheet fid 0
  | none => b

theorem lookupA_parent (env : SCEnv) (x : Nat) :
    lookupA (parent_facility_balance (unit2facility env.facilities)
        env.metrics.step_balance_sheet) x
      = (lookupA env.metrics.step_balance_sheet x).map (fun b => parent_val env x b) := by
  unfold parent_facility_balance parent_val
  exact lookupA_map_keyed
    (fun k b =>
      match lookupA (unit2facility env.facilities) k with
      | some fid => lookupD env.metrics.step_balance_sheet fid 0
      | none => b)
    env.metrics.step_balance_sheet x

theorem lookupA_reward_producer (env : SCEnv) (t : Option Int) (x : Nat) :
    lookupA (get_reward env t).producer x = lookupA env.metrics.step_balance_sheet x := by
  simp only [get_reward]
  rw [List.map_id']

theorem lookupA_reward_consumer (env : SCEnv) (t : Option Int) (x : Nat) :
    lookupA (get_reward env t).consumer x
      = (lookupA env.metrics.step_balance_sheet x).map
          (fun b =>
            env.settings.global_reward_weight_consumer
                * lookupD (parent_facility_balance (unit2facility env.facilities)
                    env.metrics.step_balance_sheet) x 0
              + (1 - env.settings.global_reward_weight_consumer) * b) := by
  simp only [get_reward]
  exact lookupA_map_keyed
    (fun k b =>
      env.settings.global_reward_weight_consumer
          * lookupD (parent_facility_balance (unit2facility env.facilities)
              env.metrics.step_balance_sheet) k 0
        + (1 - env.settings.global_reward_weight_consumer) * b)
    env.metrics.step_balance_sheet x

/-- Variants of the concrete environment with the consumer weight set to the
endpoints of its range. -/
def envW0 : SCEnv :=
  { envC with settings := { envC.settings with global_reward_weight_consumer := 0 } }

def envW1 : SCEnv :=
  { envC with settings := { envC.settings with global_reward_weight_consumer := 1 } }

/-- Claim C2: `get_reward` returns `producer[x] = balance[x]` and
`consumer[x] = wc * parentBalance[x] + (1 - wc) * balance[x]`, where the
parent balance is the owning facility's balance for a tracked sub-unit and
the entity's own balance otherwise; in the concrete scenario
`{F: 1000, productUnderF: 200}` with `wc = 1/2` this gives 600 and 200; at
`wc = 0` consumer equals producer everywhere, at `wc = 1` consumer equals
the parent balance. -/
theorem C2_reward_blending :
    (∀ (env : SCEnv) (t : Option Int) (x : Nat) (b : ℚ),
        lookupA env.metrics.step_balance_sheet x = some b →
        lookupA (get_reward env t).producer x = some b)
    ∧ (∀ (env : SCEnv) (t : Option Int) (x fid : Nat) (b pb : ℚ),
        lookupA env.metrics.step_balance_sheet x = some b →
        lookupA (unit2facility env.facilities) x = some fid →
        lookupA env.metrics.step_balance_sheet fid = some pb →
        lookupA (get_reward env t).consumer x =
          some (env.settings.global_reward_weight_consumer * pb
            + (1 - env.settings.global_reward_weight_consumer) * b))
    ∧ (∀ (env : SCEnv) (t : Option Int) (x : Nat) (b : ℚ),
        lookupA env.metrics.step_balance_sheet x = some b →
        lookupA (unit2facility env.facilities) x = none →
        lookupA (get_reward env t).consumer x =
          some (env.settings.global_reward_weight_consumer * b
            + (1 - env.settings.global_reward_weight_consumer) * b))
    ∧ (lookupA (get_reward envC none).consumer 20 = some 600
        ∧ lookupA (get_reward envC none).producer 20 = some 200)
    ∧ (∀ (env : SCEnv) (t : Option Int),
        env.settings.global_reward_weight_consumer = 0 →
        ∀ x : Nat, lookupA (get_reward env t).consumer x =
          lookupA (get_reward env t).producer x)
    ∧ (∀ (env : SCEnv) (t : Option Int) (x : Nat) (b : ℚ),
        env.settings.global_reward_weight_consumer = 1 →
        lookupA env.metrics.step_balance_sheet x = some b →
        lookupA (get_reward env t).consumer x = some (parent_val env x b)) := by
  have hpv : ∀ (env : SCEnv) (x fid : Nat) (b pb : ℚ),
      lookupA (unit2facility env.facilities) x = some fid →
      lookupA env.metrics.step_balance_sheet fid = some pb →
      parent_val env x b = pb := by
    intro env x fid b pb hu hpb
    unfold parent_val lookupD
    simp only [hu, hpb, Option.getD_some]
  have hlc : ∀ (env : SCEnv) (t : Option Int) (x : Nat) (b : ℚ),
      lookupA env.metrics.step_balance_sheet x = some b →
      lookupA (get_reward env t).consumer x =
        some (env.settings.global_reward_weight_consumer * parent_val env x b
          + (1 - env.settings.global_reward_weight_consumer) * b) := by
    intro env t x b hx
    rw [lookupA_reward_consumer, hx, Option.map_some']
    simp only [lookupD, lookupA_parent, hx, Option.map_some', Option.getD_some]
  refine ⟨?_, ?_, ?_, ⟨?_, ?_⟩, ?_, ?_⟩
  · intro env t x b hx
    rw [lookupA_reward_producer, hx]
  · intro env t x fid b pb hx hu hpb
    rw [hlc env t x b hx, hpv env x fid b pb hu hpb]
  · intro env t x b hx hu
    rw [hlc env t x b hx]
    unfold parent_val
    rw [hu]
  · norm_num [get_reward, parent_facility_balance, unit2facility, productEntries,
      lookupD, lookupA, envC, facility1, facility2, bundleA, bundleB]
  · norm_num [get_reward, parent_facility_balance, unit2facility, productEntries,
      lookupD, lookupA, envC, facility1, facility2, bundleA, bundleB]
  · intro env t h0 x
    rw [lookupA_reward_producer]
    cases hx : lookupA env.metrics.step_balance_sheet x with
    | none => rw [lookupA_reward_consumer, hx]; rfl
    | some b =>
      rw [hlc env t x b hx, h0]
      norm_num
  · intro env t x b h1 hx
    rw [hlc env t x b hx, h1]
    norm_num

/-- Witness for C2: every hypothesis-bearing part applied inside the
concrete topology (entity 20 is the product unit owned by facility 1,
entity 1 is the facility itself). -/
theorem C2_witness :
    (lookupA envC.metrics.step_balance_sheet 20 = some 200
      ∧ lookupA (get_reward envC none).producer 20 = some 200)
    ∧ (lookupA envC.metrics.step_balance_sheet 20 = some 200
      ∧ lookupA (unit2facility envC.facilities) 20 = some 1
      ∧ lookupA envC.metrics.step_balance_sheet 1 = some 1000
      ∧ lookupA (get_reward envC none).consumer 20 =
          some (envC.settings.global_reward_weight_consumer * 1000
            + (1 - envC.settings.global_reward_weight_consumer) * 200))
    ∧ (lookupA envC.metrics.step_balance_sheet 1 = some 1000
      ∧ lookupA (unit2facility envC.facilities) 1 = none
      ∧ lookupA (get_reward envC none).consumer 1 =
          some (envC.settings.global_reward_weight_consumer * 1000
            + (1 - envC.settings.global_reward_weight_consumer) * 1000))
    ∧ (envW0.settings.global_reward_weight_consumer = 0
      ∧ lookupA (get_reward envW0 none).consumer 20 =
          lookupA (get_reward envW0 none).producer 20)
    ∧ (envW1.settings.global_reward_weight_consumer = 1
      ∧ lookupA envW1.metrics.step_balance_sheet 20 = some 200
      ∧ lookupA (get_reward envW1 none).consumer 20 = some (parent_val envW1 20 200)) :=
  ⟨⟨by decide, C2_reward_blending.1 envC none 20 200 (by decide)⟩,
    ⟨by decide, by decide, by decide,
      C2_reward_blending.2.1 envC none 20 1 200 1000 (by decide) (by decide) (by decide)⟩,
    ⟨by decide, by decide,
      C2_reward_blending.2.2.1 envC none 1 1000 (by decide) (by decide)⟩,
    ⟨rfl, C2_reward_blending.2.2.2.2.1 envW0 none rfl 20⟩,
    ⟨rfl, by decide,
      C2_reward_blending.2.2.2.2.2 envW1 none 20 200 rfl (by decide)⟩⟩

/-! ### Flat-vector lemmas for the per-source-per-sku loops (C3) -/

theorem listSet_length {α : Type} : ∀ (v : List α) (k : Nat) (x : α),
    (listSet v k x).length = v.length := by
  intro v
  induction v with
  | nil => intro k x; rfl
  | cons y ys ih =>
    intro k x
    cases k with
    | zero => rfl
    | succ n => simp [listSet, ih]

theorem getD_listSet_self {α : Type} (d : α) :
    ∀ (v : List α) (k : Nat) (x : α), k < v.length → (listSet v k x).getD k d = x := by
  intro v
  induction v with
  | nil => intro k x h; simp at h
  | cons y ys ih =>
    intro k x h
    cases k with
    | zero => rfl
    | succ n =>
      simp only [listSet, List.getD_cons_succ]
      exact ih n x (by simpa using h)

theorem getD_listSet_ne {α : Type} (d : α) :
    ∀ (v : List α) (k m : Nat) (x : α), m ≠ k → (listSet v k x).getD m d = v.getD m d := by
  intro v
  induction v with
  | nil => intro k m x _; rfl
  | cons y ys ih =>
    intro k m x h
    cases k with
    | zero =>
      cases m with
      | zero => exact absurd rfl h
      | succ mm => rfl
    | succ n =>
      cases m with
      | zero => rfl
      | succ mm =>
        simp only [listSet, List.getD_cons_succ]
        exact ih n mm x (by omega)

theorem getD_replicate_zero : ∀ (n k : Nat), (List.replicate n (0 : ℚ)).getD k 0 = 0 := by
  intro n
  induction n with
  | zero => intro k; rfl
  | succ nn ih =>
    intro k
    cases k with
    | zero => rfl
    | succ kk =>
      simp only [List.replicate, List.getD_cons_succ]
      exact ih kk

theorem vlt_inner_length (val : ℚ) (skuId base : Nat) :
    ∀ (l : List SkuMeta) (j : Nat) (v : List ℚ),
      (vlt_inner val skuId base l j v).length = v.length := by
  intro l
  induction l with
  | nil => intro j v; rfl
  | cons m rest ih =>
    intro j v
    rw [vlt_inner, ih]
    by_cases h : m.id = skuId
    · simp [h, listSet_length]
    · simp [h]

theorem source_sku_loop_length (valOf : Nat → ℚ) (skuId stride : Nat)
    (skus : List SkuMeta) :
    ∀ (srcs : List Nat) (i : Nat) (v : List ℚ),
      (source_sku_loop valOf skuId stride skus srcs i v).length = v.length := by
  intro srcs
  induction srcs with
  | nil => intro i v; rfl
  | cons s rest ih =>
    intro i v
    rw [source_sku_loop, ih, vlt_inner_length]

/-- With dense one-based sku ids, positions in the catalogue determine ids:
the entry at position `t` has id `s + t` when the id list is
`range' s`. -/
theorem dense_of_map_range : ∀ (l : List SkuMeta) (s : Nat),
    l.map SkuMeta.id = List.range' s l.length →
    ∀ (t : Nat) (m : SkuMeta), l.get? t = some m → m.id = s + t := by
  intro l
  induction l with
  | nil => intro s _ t m hm; cases hm
  | cons x xs ih =>
    intro s h t m hm
    rw [List.map_cons, List.length_cons, List.range'_succ] at h
    injection h with h1 h2
    cases t with
    | zero =>
      cases hm
      omega
    | succ tt =>
      have := ih (s + 1) h2 tt m hm
      omega

/-- One pass of the inner sku loop over a dense catalogue suffix: it writes
`val` at `base + skuId` exactly when the agent's sku id falls in the
suffix's id range, and otherwise leaves the vector unchanged. -/
theorem vlt_inner_eq (val : ℚ) (skuId base : Nat) :
    ∀ (l : List SkuMeta) (j : Nat) (v : List ℚ),
      (∀ t m, l.get? t = some m → m.id = j + t + 1) →
      vlt_inner val skuId base l j v =
        if j + 1 ≤ skuId ∧ skuId ≤ j + l.length then listSet v (base + skuId) val
        else v := by
  intro l
  induction l with
  | nil =>
    intro j v _
    rw [vlt_inner]
    rw [if_neg (by simp; omega)]
  | cons m rest ih =>
    intro j v hd
    have hm : m.id = j + 1 := by
      have := hd 0 m rfl
      omega
    rw [vlt_inner]
    have hd' : ∀ t mm, rest.get? t = some mm → mm.id = (j + 1) + t + 1 := by
      intro t mm h
      have := hd (t + 1) mm h
      omega
    rw [ih (j + 1) _ hd']
    by_cases hsk : m.id = skuId
    · have hskj : skuId = j + 1 := by omega
      rw [if_pos hsk]
      rw [if_neg (by omega)]
      rw [if_pos (by constructor <;> [omega; (simp; omega)])]
      rw [hskj]
      congr 1
    · rw [if_neg hsk]
      have hne2 : skuId ≠ j + 1 := by omega
      by_cases hcond : (j + 1) + 1 ≤ skuId ∧ skuId ≤ (j + 1) + rest.length
      · rw [if_pos hcond, if_pos (by simp; omega)]
      · rw [if_neg hcond, if_neg (by simp; omega)]

/-- The outer source loop with a source-independent written value: after the
whole double loop, slot `k` holds `val` iff `k = (i0 + t) * sku_count +
skuId` for some source position `t`, and is unchanged otherwise. -/
theorem source_sku_loop_getD (val : ℚ) (skuId : Nat) (skus : List SkuMeta)
    (hd : ∀ t m, skus.get? t = some m → m.id = t + 1)
    (h1 : 1 ≤ skuId) (h2 : skuId ≤ skus.length) :
    ∀ (srcs : List Nat) (i0 : Nat) (v : List ℚ),
      (∀ i, i < i0 + srcs.length → i * skus.length + skuId < v.length) →
      ∀ k, (source_sku_loop (fun _ => val) skuId skus.length skus srcs i0 v).getD k 0 =
        if ∃ t, t < srcs.length ∧ k = (i0 + t) * skus.length + skuId then val
        else v.getD k 0 := by
  intro srcs
  induction srcs with
  | nil =>
    intro i0 v _ k
    rw [source_sku_loop]
    rw [if_neg (by rintro ⟨t, ht, _⟩; simp at ht)]
  | cons s rest ih =>
    intro i0 v hin k
    have hL : 0 < skus.length := by omega
    rw [source_sku_loop]
    rw [vlt_inner_eq val skuId (i0 * skus.length) skus 0 v
      (fun t m h => by have := hd t m h; omega)]
    rw [if_pos ⟨by omega, by omega⟩]
    rw [ih (i0 + 1) _
      (fun i hi => by
        rw [listSet_length]
        exact hin i (by simp at hi ⊢; omega))]
    by_cases hk : k = i0 * skus.length + skuId
    · have hnot : ¬∃ t, t < rest.length ∧ k = (i0 + 1 + t) * skus.length + skuId := by
        rintro ⟨t, ht, hkk⟩
        have hstep : (i0 + 1) * skus.length ≤ (i0 + 1 + t) * skus.length :=
          Nat.mul_le_mul_right skus.length (by omega)
        rw [Nat.succ_mul] at hstep
        omega
      rw [if_neg hnot]
      rw [if_pos ⟨0, by simp, by simpa using hk⟩]
      rw [hk]
      exact getD_listSet_self 0 v (i0 * skus.length + skuId) val (hin i0 (by simp))
    · rw [getD_listSet_ne 0 v (i0 * skus.length + skuId) k val hk]
      by_cases hex : ∃ t, t < rest.length ∧ k = (i0 + 1 + t) * skus.length + skuId
      · obtain ⟨t, ht, hkk⟩ := hex
        rw [if_pos ⟨t, ht, hkk⟩]
        rw [if_pos ⟨t + 1, by simp; omega,
          by rw [hkk, show i0 + (t + 1) = i0 + 1 + t from by omega]⟩]
      · rw [if_neg hex]
        rw [if_neg ?_]
        rintro ⟨t, ht, hkk⟩
        cases t with
        | zero => exact hk (by simpa using hkk)
        | succ tt =>
          exact hex ⟨tt, by simp at ht; omega,
            by rw [hkk, show i0 + (tt + 1) = i0 + 1 + tt from by omega]⟩

/-- Claim C3, counterexample: in the concrete topology the sole upstream
source (facility 2) configures lead time 7 for sku 1, yet the VLT slot for
source position 0 holds 3 — the AGENT'S OWN facility's configured lead time
— and the vector length is `max_sources * (sku_count + 1) = 3`, which
exceeds the claimed bound `max_sources * sku_count = 2`. -/
theorem C3_counterexample :
    (build_agent_state envC nlC agentP).vlt = [0, 3, 0]
    ∧ lookupD (facilityOf envC agentP.facility_id).upstreams 1 [] = [2]
    ∧ (lookupFSku (facilityOf envC 2).skus 1).vlt = 7
    ∧ (lookupFSku (facilityOf envC agentP.facility_id).skus 1).vlt = 3
    ∧ (build_agent_state envC nlC agentP).vlt.getD (0 * envC.skus.length + 1) 0 = 3
    ∧ ((3 : ℚ) ≠ 7)
    ∧ (build_agent_state envC nlC agentP).vlt.length = 3
    ∧ envC.metrics.max_sources_per_facility * envC.skus.length = 2 := by
  decide

/-- Claim C3 (amended): for a product-level agent with a consumer sub-unit
and non-empty upstream sources, over a dense one-based sku catalogue, slot
`i * sku_count + sku_id` of the VLT vector holds, for every upstream source
position `i`, the agent's OWN facility's configured lead time for its sku
(not the source's), all other slots are zero, and the vector's length is
`max_sources_per_facility * (sku_count + 1)`. -/
theorem C3_vlt_layout (env : SCEnv) (nl : NumLib) (a : AgentInfo) (sku : AgentSku)
    (p : ProductBundle) (c : UnitBaseInfo) (srcs : List Nat)
    (hf : a.is_facility = false) (hs : a.sku = some sku)
    (hp : lookupA (facilityOf env a.facility_id).products sku.id = some p)
    (hc : p.consumer = some c)
    (hu : lookupD (facilityOf env a.facility_id).upstreams sku.id [] = srcs)
    (hne : srcs ≠ [])
    (hdense : env.skus.map SkuMeta.id = List.range' 1 env.skus.length)
    (hsk1 : 1 ≤ sku.id) (hskn : sku.id ≤ env.skus.length)
    (hms : srcs.length ≤ env.metrics.max_sources_per_facility) :
    (build_agent_state env nl a).vlt.length =
        env.metrics.max_sources_per_facility * (env.skus.length + 1)
    ∧ ∀ k : Nat, (build_agent_state env nl a).vlt.getD k 0 =
        if ∃ t, t < srcs.length ∧ k = t * env.skus.length + sku.id
        then (lookupFSku (facilityOf env a.facility_id).skus sku.id).vlt else 0 := by
  have hctx := consumer_ctx_some env a sku p c srcs hf hs hp hc hu hne
  have hvv : (build_agent_state env nl a).vlt =
      source_sku_loop (fun _ => (lookupFSku (facilityOf env a.facility_id).skus sku.id).vlt)
        sku.id env.skus.length env.skus srcs 0
        (List.replicate (env.metrics.max_sources_per_facility * sku_number env) 0) := by
    simp only [bas_vlt, vlt_vec, hctx]
  have hdp : ∀ t m, env.skus.get? t = some m → m.id = t + 1 := by
    intro t m h
    have := dense_of_map_range env.skus 1 hdense t m h
    omega
  constructor
  · rw [hvv, source_sku_loop_length, List.length_replicate, sku_number]
  · intro k
    rw [hvv]
    rw [source_sku_loop_getD
      (lookupFSku (facilityOf env a.facility_id).skus sku.id).vlt sku.id env.skus
      hdp hsk1 hskn srcs 0 _
      (by
        intro i hi
        rw [List.length_replicate, sku_number]
        have hstep : (i + 1) * env.skus.length ≤
            env.metrics.max_sources_per_facility * env.skus.length :=
          Nat.mul_le_mul_right env.skus.length (by omega)
        rw [Nat.succ_mul] at hstep
        rw [Nat.mul_succ]
        omega)
      k]
    simp only [Nat.zero_add, getD_replicate_zero]

/-- Witness for C3: the amended layout theorem applied to the concrete
topology (one upstream source, two catalogue skus, own-facility lead time
3). -/
theorem C3_witness :
    (agentP.is_facility = false
      ∧ agentP.sku = some ⟨1, 10, 5, 1⟩
      ∧ lookupA (facilityOf envC agentP.facility_id).products 1 = some bundleA
      ∧ bundleA.consumer = some ⟨30, 3⟩
      ∧ lookupD (facilityOf envC agentP.facility_id).upstreams 1 [] = [2]
      ∧ ([2] : List Nat) ≠ []
      ∧ envC.skus.map SkuMeta.id = List.range' 1 envC.skus.length
      ∧ 1 ≤ (1 : Nat) ∧ 1 ≤ envC.skus.length
      ∧ ([2] : List Nat).length ≤ envC.metrics.max_sources_per_facility)
    ∧ ((build_agent_state envC nlC agentP).vlt.length =
          envC.metrics.max_sources_per_facility * (envC.skus.length + 1)
        ∧ ∀ k : Nat, (build_agent_state envC nlC agentP).vlt.getD k 0 =
            if ∃ t, t < ([2] : List Nat).length ∧ k = t * envC.skus.length + 1
            then (lookupFSku (facilityOf envC agentP.facility_id).skus 1).vlt else 0) :=
  ⟨⟨rfl, rfl, by decide, rfl, by decide, by decide, by decide, by decide, by decide,
      by decide⟩,
    C3_vlt_layout envC nlC agentP ⟨1, 10, 5, 1⟩ bundleA ⟨30, 3⟩ [2]
      rfl rfl (by decide) rfl (by decide) (by decide) (by decide) (by decide) (by decide)
      (by decide)⟩

end SCEnvWrapper
